import Mathlib

/-!
Verification of the client-side session, routing and live-status layer of the
contact-page-submitter frontend. Definitions are shallow embeddings of the
JavaScript source (App.jsx routing, useAuth.jsx, services/api.js,
FormSubmitterPage polling, OwnerDashboard fetch guard); theorems settle the
frozen claims about them.
-/

namespace ContactPageSubmitter

/-! ## JavaScript primitives

Small helpers mirroring JavaScript semantics used throughout the source:
`a || b` on strings (empty string is falsy), truthiness of an optional
string, `charAt(0).toUpperCase() + slice(1)`, `toLowerCase`, and
`String.prototype.includes`.
-/

/-- JavaScript `a || b` where `a` is a possibly absent string: `none` and the
empty string are falsy. -/
def jsOr (a : Option String) (b : String) : String :=
  match a with
  | none => b
  | some s => if s = "" then b else s

/-- JavaScript truthiness of a possibly absent string value. -/
def truthyS (a : Option String) : Bool :=
  match a with
  | none => false
  | some s => s ≠ ""

/-- JavaScript `s.charAt(0).toUpperCase() + s.slice(1)`. -/
def jsCapitalize (s : String) : String :=
  match s.data with
  | [] => ""
  | c :: cs => String.mk (c.toUpper :: cs)

/-- JavaScript `s.toLowerCase()` (ASCII, as used on role strings). -/
def jsToLower (s : String) : String := s.map Char.toLower

/-- JavaScript `hay.includes(pat)`: substring containment. -/
def containsSub (hay pat : String) : Bool :=
  (List.range (hay.length + 1)).any (fun i => (hay.drop i).startsWith pat)

/-! ## Roles and route gating

From `src/App.jsx` (the `part_000` variant with `getDefaultPathForRole`) and
`src/frontend/src/App.jsx` (the variant that always redirects to
`/dashboard` on a role mismatch), plus `getUserRole` from
`components/layout/Header.jsx`.
-/

/-- JavaScript value found in the `role` field of a user object:
absent/null, a string, or an object with an optional `value` property
(`vObj none` also covers an object whose `value` is falsy-absent). -/
inductive JsRoleVal
  | vUndefined
  | vStr (s : String)
  | vObj (value : Option String)
deriving DecidableEq, Repr

/-- User record as delivered by the backend and held by the auth provider.
Only the fields the verified slice reads are modelled. -/
structure UserJson where
  id : Option String
  role : JsRoleVal
deriving DecidableEq, Repr

/-- From `getDefaultPathForRole` in `src/App.jsx` (part_000): `switch` on the
role with cases `owner`, `admin`, and `user`/default. -/
def getDefaultPathForRole (role : String) : String :=
  if role = "owner" then "/owner"
  else if role = "admin" then "/admin"
  else "/dashboard"

/-- From `getUserRole` in `Header.jsx`:
`if (typeof role === "object" && role?.value) return role.value; return role || "user";`.
An object with a falsy `value` is itself truthy, so it is returned as is;
only an absent or empty role falls back to the string `user`. -/
def getUserRole (user : Option UserJson) : JsRoleVal :=
  let role := match user with
    | some u => u.role
    | none => JsRoleVal.vUndefined
  match role with
  | JsRoleVal.vObj (some v) =>
      if v ≠ "" then JsRoleVal.vStr v else JsRoleVal.vObj (some v)
  | JsRoleVal.vObj none => JsRoleVal.vObj none
  | JsRoleVal.vUndefined => JsRoleVal.vStr "user"
  | JsRoleVal.vStr s => if s ≠ "" then JsRoleVal.vStr s else JsRoleVal.vStr "user"

/-- User fields read by the `ProtectedRoute` components. -/
structure RouteUser where
  role : String
  contactInfoCompleted : Bool
deriving DecidableEq, Repr

/-- Outcome of rendering a `ProtectedRoute`: either the children render or a
`Navigate` element redirects to the given path. -/
inductive RouteDecision
  | allow
  | redirect (target : String)
deriving DecidableEq, Repr

/-- From `ProtectedRoute` in `src/App.jsx` (part_000 variant): unauthenticated
users go to the root; a non-empty `allowedRoles` list not containing the
user role redirects to `getDefaultPathForRole(user.role)`; an incomplete
contact profile redirects to `/contact-info` unless already there. -/
def ProtectedRoute (user : Option RouteUser) (allowedRoles : List String)
    (requiresContactInfo : Bool) (currentPath : String) : RouteDecision :=
  match user with
  | none => RouteDecision.redirect "/"
  | some u =>
      if 0 < allowedRoles.length ∧ u.role ∉ allowedRoles then
        RouteDecision.redirect (getDefaultPathForRole u.role)
      else if requiresContactInfo ∧ ¬u.contactInfoCompleted ∧ currentPath ≠ "/contact-info" then
        RouteDecision.redirect "/contact-info"
      else
        RouteDecision.allow

/-- From `ProtectedRoute` in `src/frontend/src/App.jsx`: identical except that
a role mismatch always redirects to the fixed path `/dashboard`. -/
def ProtectedRouteApp (user : Option RouteUser) (allowedRoles : List String)
    (requiresContactInfo : Bool) (currentPath : String) : RouteDecision :=
  match user with
  | none => RouteDecision.redirect "/"
  | some u =>
      if 0 < allowedRoles.length ∧ u.role ∉ allowedRoles then
        RouteDecision.redirect "/dashboard"
      else if requiresContactInfo ∧ ¬u.contactInfoCompleted ∧ currentPath ≠ "/contact-info" then
        RouteDecision.redirect "/contact-info"
      else
        RouteDecision.allow

/-! ## Token storage and the API gateway

From `src/services/api.js`. `localStorage` is modelled by the three keys the
verified slice touches. An HTTP exchange is modelled by its observable
outcome: a parsed body on a 2xx response, a non-2xx response with status and
optional JSON body (`none` models an absent or empty body, which is falsy in
JavaScript), or a network failure that produced no response (axios sets
`error.code` on those). The hard redirect performed by
`window.location.href` is recorded as a boolean navigation flag.
-/

/-- Durable client storage keys written by the login flows and cleared by the
401 interceptor, `checkAuthStatus` and `logout`. -/
structure Storage where
  access_token : Option String
  user_info : Option String
  user_id : Option String
deriving DecidableEq, Repr

/-- Storage with none of the keys set. -/
def emptyStorage : Storage :=
  { access_token := none, user_info := none, user_id := none }

/-- JSON body of an error response, as read by the source: only the `detail`
and `message` fields are ever inspected (string-valued where inspected by the
verified flows). -/
structure RespBody where
  detail : Option String
  message : Option String
deriving DecidableEq, Repr

/-- Observable outcome of one axios request. `http` is a response whose
status made axios reject (non-2xx); `network` is a failure with no response,
carrying the axios `error.code` and `error.message`. -/
inductive AxiosOutcome (α : Type)
  | ok (data : α)
  | http (status : Nat) (body : Option RespBody)
  | network (code : String) (msg : String)
deriving DecidableEq, Repr

/-- Error value thrown out of `ApiService.makeRequest`: either the plain
`new Error(detail || message || "Request failed")` built when the response
had a body, or the original axios error (with response, or network). -/
inductive ThrownError
  | plainErr (msg : String)
  | httpErr (status : Nat) (body : Option RespBody)
  | netErr (code : String) (msg : String)
deriving DecidableEq, Repr

/-- Response interceptor in `ApiService.setupInterceptors`: on status 401 it
removes `access_token` and `user_info` from storage and sets
`window.location.href` to the root (second component true). No other key is
touched and no other status has a storage effect. -/
def interceptor401 (status : Nat) (s : Storage) : Storage × Bool :=
  if status = 401 then
    ({ s with access_token := none, user_info := none }, true)
  else
    (s, false)

/-- From `ApiService.makeRequest`: the axios call resolves to `response.data`
on success; on rejection the response interceptor runs first (401 handling),
then the catch block throws `new Error(data.detail || data.message ||
"Request failed")` when the error has a truthy `response.data`, and rethrows
the original error otherwise. Result: thrown-or-returned value, storage
after the call, and whether a hard navigation was forced. -/
def makeRequest {α : Type} (outcome : AxiosOutcome α) (s : Storage) :
    Except ThrownError α × Storage × Bool :=
  match outcome with
  | AxiosOutcome.ok a => (Except.ok a, s, false)
  | AxiosOutcome.http status body =>
      let si := interceptor401 status s
      match body with
      | some b =>
          (Except.error (ThrownError.plainErr (jsOr b.detail (jsOr b.message "Request failed"))),
           si.1, si.2)
      | none => (Except.error (ThrownError.httpErr status none), si.1, si.2)
  | AxiosOutcome.network code msg => (Except.error (ThrownError.netErr code msg), s, false)

/-! ## Error-message taxonomy and the auth provider

From `src/hooks/useAuth.jsx`: the `getErrorMessage` helper and the
`login` / `refreshUser` functions of `AuthProvider`.
-/

/-- From `getErrorMessage` in `useAuth.jsx`. Network codes are only present
on errors without a response; an error with a response is dispatched on its
status; a plain `Error` (as rethrown by `makeRequest` for bodied responses)
has neither `code` nor `response` and falls through to `error.message`.
The 422 branch is modelled for string-valued `detail` (the array case is not
reached by the verified flows). -/
def getErrorMessage (e : ThrownError) (action : String) : String :=
  match e with
  | ThrownError.netErr code msg =>
      if code = "ERR_NETWORK" ∨ code = "ECONNABORTED" then
        "Cannot connect to server. Please ensure the backend is running on http://127.0.0.1:8000"
      else if msg ≠ "" then msg
      else jsCapitalize action ++ " failed. Please try again."
  | ThrownError.httpErr status body =>
      match status with
      | 401 => "Invalid email or password. Please check your credentials."
      | 403 =>
          match body with
          | some b =>
              match b.detail with
              | some d =>
                  if containsSub d "verify" then "Please verify your email to login."
                  else if containsSub d "inactive" then
                    "Your account is inactive. Please contact support."
                  else d
              | none => "Your account is restricted."
          | none => "Your account is restricted."
      | 404 => jsCapitalize action ++ " service not found. Please check the server configuration."
      | 409 => "This email is already registered. Please login instead."
      | 422 =>
          match body with
          | some b =>
              match b.detail with
              | some d => d
              | none =>
                  "Invalid input. Please check your " ++
                    (if action = "login" then "email and password" else "information") ++ "."
          | none =>
              "Invalid input. Please check your " ++
                (if action = "login" then "email and password" else "information") ++ "."
      | 500 => "Server error. Please try again in a moment."
      | _ =>
          jsOr (body.bind RespBody.detail)
            (jsOr (body.bind RespBody.message) (jsCapitalize action ++ " failed. Please try again."))
  | ThrownError.plainErr msg =>
      if msg ≠ "" then msg
      else jsCapitalize action ++ " failed. Please try again."

/-- Body of a successful response of `POST /api/auth/login`. -/
structure LoginResp where
  access_token : Option String
  user : Option UserJson
deriving DecidableEq, Repr

/-- JSON.stringify of the user payload as stored under `user_info`; the
stored text is never parsed back by the verified slice, so only its presence
matters and the rendering is kept simple. -/
def encodeUserInfo (u : Option UserJson) : String :=
  match u with
  | none => "undefined"
  | some us => "user-json:" ++ (us.id.getD "null")

/-- From `ApiService.login`: runs the request and, when the resolved body has
a truthy `access_token`, stores the token and the stringified user before
returning the body to the caller. -/
def apiLogin (outcome : AxiosOutcome LoginResp) (s : Storage) :
    Except ThrownError LoginResp × Storage × Bool :=
  let (r, s1, nav) := makeRequest outcome s
  match r with
  | Except.ok resp =>
      if truthyS resp.access_token then
        (Except.ok resp,
         { s1 with access_token := resp.access_token,
                   user_info := some (encodeUserInfo resp.user) }, nav)
      else (Except.ok resp, s1, nav)
  | Except.error e => (Except.error e, s1, nav)

/-- Value returned by `AuthProvider.login`. -/
structure LoginResult where
  success : Bool
  error : Option String
deriving DecidableEq, Repr

/-- From `AuthProvider.login` in `useAuth.jsx`: on a resolved response with
both `access_token` and `user` truthy it stores the token, stores
`user_id` when `user.id` is truthy, and returns success; on a resolved
response missing either it returns a fixed failure message; every thrown
error is caught and mapped through `getErrorMessage` — the function is
total, so no error escapes this boundary. -/
def authLogin (outcome : AxiosOutcome LoginResp) (s : Storage) :
    LoginResult × Storage × Bool :=
  match apiLogin outcome s with
  | (Except.ok resp, s1, nav) =>
      if truthyS resp.access_token ∧ resp.user.isSome then
        let s2 := { s1 with access_token := resp.access_token }
        let s3 := match resp.user with
          | some u => if truthyS u.id then { s2 with user_id := u.id } else s2
          | none => s2
        ({ success := true, error := none }, s3, nav)
      else
        ({ success := false, error := some "Invalid response from server" }, s1, nav)
  | (Except.error e, s1, nav) =>
      ({ success := false, error := some (getErrorMessage e "login") }, s1, nav)

/-- Auth state held by `AuthProvider` (the `user` React state). -/
structure AuthState where
  user : Option UserJson
deriving DecidableEq, Repr

/-- From `AuthProvider.refreshUser`: on a resolved fetch it stores and
returns the user; on any rejection it returns null and performs no state or
storage write (the catch block only logs). The storage component is passed
through to make the frame explicit: the function body contains no
storage operation. -/
def refreshUser (st : AuthState) (s : Storage)
    (result : Except ThrownError UserJson) :
    Option UserJson × AuthState × Storage :=
  match result with
  | Except.ok u => (some u, { st with user := some u }, s)
  | Except.error _ => (none, st, s)

/-! ## Campaign list and analytics fetchers

From `ApiService.getCampaigns` and `ApiService.getUserAnalytics` in
`src/services/api.js`.
-/

/-- Resolved body of `GET /api/campaigns`: either a JSON array (campaigns
are abstracted to their ids) or some other value with an optional `data`
array. -/
inductive CampaignsResp
  | arr (ids : List Nat)
  | other (data : Option (List Nat))
deriving DecidableEq, Repr

/-- From `ApiService.getCampaigns`: returns the array, or `response.data`,
or `[]` — and catches every error, resolving with `[]` instead of
propagating. The `Except` in the result records thrown-vs-returned; the
catch makes it always `ok`. -/
def getCampaigns (outcome : AxiosOutcome CampaignsResp) (s : Storage) :
    Except ThrownError (List Nat) × Storage × Bool :=
  match makeRequest outcome s with
  | (Except.ok r, s1, nav) =>
      (Except.ok (match r with
        | CampaignsResp.arr cs => cs
        | CampaignsResp.other d => d.getD []), s1, nav)
  | (Except.error _, s1, nav) => (Except.ok [], s1, nav)

/-- JSON value of a numeric analytics field: a number or JSON null. -/
inductive JVal
  | num (n : Int)
  | jnull
deriving DecidableEq, Repr

/-- Resolved body of `GET /api/analytics/user`; each field is absent
(`none`) or present with a value. -/
structure AnalyticsResp where
  campaigns_count : Option JVal
  total_campaigns : Option JVal
  active_campaigns : Option JVal
  completed_campaigns : Option JVal
  success_rate : Option JVal
  total_submissions : Option JVal
  successful_submissions : Option JVal
  failed_submissions : Option JVal
  websites_count : Option JVal
  error : Option Bool
deriving DecidableEq, Repr

/-- Object resolved by `getUserAnalytics`. -/
structure AnalyticsResult where
  campaigns_count : JVal
  total_campaigns : JVal
  active_campaigns : JVal
  completed_campaigns : JVal
  success_rate : JVal
  total_submissions : JVal
  successful_submissions : JVal
  failed_submissions : JVal
  websites_count : JVal
  error : Bool
deriving DecidableEq, Repr

/-- JavaScript `v || 0` on an optional JSON value. -/
def jsOrZero (v : Option JVal) : JVal :=
  match v with
  | some (JVal.num n) => JVal.num n
  | _ => JVal.num 0

/-- Field `f` of the object `{ f: resp.f || 0, ...resp }`: the trailing
spread overwrites the defaulted entry whenever `f` is present in the
response, so the default `0` survives only when `f` is absent. -/
def spreadNum (v : Option JVal) : JVal :=
  match v with
  | some w => w
  | none => JVal.num 0

/-- All-zero analytics object returned from the catch block of
`getUserAnalytics`, with `error: true`. -/
def zeroAnalytics : AnalyticsResult :=
  { campaigns_count := JVal.num 0, total_campaigns := JVal.num 0,
    active_campaigns := JVal.num 0, completed_campaigns := JVal.num 0,
    success_rate := JVal.num 0, total_submissions := JVal.num 0,
    successful_submissions := JVal.num 0, failed_submissions := JVal.num 0,
    websites_count := JVal.num 0, error := true }

/-- From `ApiService.getUserAnalytics`: on success it builds the object
`{ campaigns_count: r.campaigns_count || 0, ..., websites_count:
r.websites_count || 0, ...r }` (defaults first, response spread last);
`total_campaigns` defaults to `r.campaigns_count || 0`. On any error it
resolves — never rejects — with the all-zero object and `error: true`. -/
def getUserAnalytics (outcome : AxiosOutcome AnalyticsResp) (s : Storage) :
    AnalyticsResult × Storage × Bool :=
  match makeRequest outcome s with
  | (Except.ok r, s1, nav) =>
      ({ campaigns_count := spreadNum r.campaigns_count,
         total_campaigns := (match r.total_campaigns with
           | some v => v
           | none => jsOrZero r.campaigns_count),
         active_campaigns := spreadNum r.active_campaigns,
         completed_campaigns := spreadNum r.completed_campaigns,
         success_rate := spreadNum r.success_rate,
         total_submissions := spreadNum r.total_submissions,
         successful_submissions := spreadNum r.successful_submissions,
         failed_submissions := spreadNum r.failed_submissions,
         websites_count := spreadNum r.websites_count,
         error := r.error.getD false }, s1, nav)
  | (Except.error _, s1, nav) => (zeroAnalytics, s1, nav)

/-! ## Campaign status polling

From the status-polling `useEffect` of `FormSubmitterPage`
(`components/layout/Header.jsx`, third document). React semantics of the
effect: its dependency list is `[processingCampaignId,
campaignStatus?.is_complete, statusCheckErrors, navigate]`, so after every
state update the effect is cleaned up (interval cleared) and re-run; the
re-run re-creates the interval exactly when `processingCampaignId` is set
and the last status is not complete. A `clearInterval` inside the callback
therefore only outlasts the tick if the re-run condition has become false;
otherwise the next effect run starts a fresh interval. Consequently
"a further poll will be issued" is the derived predicate `pollingActive`.
Inside the interval callback, `statusCheckErrors` is the closure value
captured when the effect ran, which by the dependency list equals the
current state value at the time of the tick.
-/

/-- Campaign status payload of `GET /api/campaigns/:id/status`, with the
fields the polling effect reads plus the progress counters. -/
structure CampaignStatusMsg where
  is_complete : Bool
  status : String
  error_message : Option String
  total : Nat
  processed : Nat
  successful : Nat
  failed : Nat
deriving DecidableEq, Repr

/-- React state of `FormSubmitterPage` touched by the polling effect. -/
structure PollState where
  processingCampaignId : Option Nat
  campaignStatus : Option CampaignStatusMsg
  statusCheckErrors : Nat
  errorMsg : Option String
  success : Bool
deriving DecidableEq, Repr

/-- The effect condition `processingCampaignId && !campaignStatus?.is_complete`:
a status-poll interval exists (so another poll will fire) exactly when this
holds. Campaign ids are modelled as positive, hence truthy. -/
def pollingActive (s : PollState) : Bool :=
  s.processingCampaignId.isSome &&
    !(match s.campaignStatus with
      | some st => st.is_complete
      | none => false)

/-- One firing of the interval callback with the outcome of its
`getCampaignStatus` call. Success path: store the status, reset the error
counter, and on `is_complete` clear `processingCampaignId` and set the
status-specific state (`COMPLETED` sets success, `FAILED` sets the error
message, `STOPPED` only navigates). Failure path: increment the error
counter; when the closure value (the pre-increment counter) is already at
least 10, set the connection-lost error. The `clearInterval` calls are not
state: whether a next poll fires is `pollingActive` of the new state, per
the effect semantics described above. -/
def pollTick (s : PollState) (r : Except Unit CampaignStatusMsg) : PollState :=
  if pollingActive s then
    match r with
    | Except.ok st =>
        let s1 := { s with campaignStatus := some st, statusCheckErrors := 0 }
        if st.is_complete then
          let s2 := { s1 with processingCampaignId := none }
          if st.status = "COMPLETED" then { s2 with success := true }
          else if st.status = "FAILED" then
            { s2 with errorMsg := some (jsOr st.error_message "Campaign processing failed") }
          else s2
        else s1
    | Except.error _ =>
        let c := s.statusCheckErrors
        let s1 := { s with statusCheckErrors := c + 1 }
        if 10 ≤ c then
          { s1 with
            errorMsg := some "Lost connection to campaign processing. Please check campaign list." }
        else s1
  else s

/-- One failed status check. -/
def failStep (s : PollState) : PollState := pollTick s (Except.error ())

/-- From `ApiService.closeWebSocket`: clear the ping interval and close the
socket only when its `readyState` is `OPEN` (1); `CLOSED` is 3. -/
structure WsConn where
  pingInterval : Option Nat
  readyState : Nat
deriving DecidableEq, Repr

/-- Teardown helper `closeWebSocket(ws)`. -/
def closeWebSocket (ws : Option WsConn) : Option WsConn :=
  match ws with
  | none => none
  | some w =>
      some { pingInterval := none,
             readyState := if w.readyState = 1 then 3 else w.readyState }

/-! ## Dashboard fetch deduplication

From `fetchDashboardData` in `src/pages/OwnerDashboard.jsx`. The refs
involved (`lastFetchTimeRef`, `isLoadingRef`, `abortControllerRef`) are
modelled as a state record; abort controllers are numbered so that an
aborted batch is identifiable. Time is `Date.now()` in milliseconds.
-/

/-- Ref state of `OwnerDashboard` read and written by `fetchDashboardData`. -/
structure DashFetchState where
  lastFetchTime : Nat
  isLoading : Bool
  abortCtrl : Option Nat
  nextCtrl : Nat
deriving DecidableEq, Repr

/-- What one call to `fetchDashboardData` does to the network: nothing, or
start a new request batch under controller `ctrl` after aborting the
controller `aborted` (if any). -/
inductive FetchAction
  | noop
  | start (aborted : Option Nat) (ctrl : Nat)
deriving DecidableEq, Repr

/-- From `fetchDashboardData`: unless forced, a call while a batch is in
flight or within 1000 ms of the previous accepted call returns without any
network activity; otherwise it aborts the previous abort controller first,
installs a fresh one, and starts the batch, recording the fetch time. -/
def fetchDashboardData (s : DashFetchState) (now : Nat) (forceRefresh : Bool) :
    DashFetchState × FetchAction :=
  let timeSinceLastFetch := now - s.lastFetchTime
  if ¬forceRefresh ∧ (s.isLoading ∨ timeSinceLastFetch < 1000) then
    (s, FetchAction.noop)
  else
    ({ lastFetchTime := now, isLoading := true,
       abortCtrl := some s.nextCtrl, nextCtrl := s.nextCtrl + 1 },
     FetchAction.start s.abortCtrl s.nextCtrl)

/-! ## Sample values used by concrete evaluations -/

/-- Login response with token and a user whose id is 42. -/
def loginOutcome : AxiosOutcome LoginResp :=
  AxiosOutcome.ok
    { access_token := some "tok",
      user := some { id := some "42", role := JsRoleVal.vStr "user" } }

/-- Storage after a full `AuthProvider.login` run on `loginOutcome`. -/
def storageAfterLogin : Storage := (authLogin loginOutcome emptyStorage).2.1

/-- Status payload of a campaign that is still running. -/
def runningStatus : CampaignStatusMsg :=
  { is_complete := false, status := "RUNNING", error_message := none,
    total := 50, processed := 10, successful := 8, failed := 2 }

/-- Status payload of a completed campaign. -/
def doneStatus : CampaignStatusMsg :=
  { is_complete := true, status := "COMPLETED", error_message := none,
    total := 50, processed := 50, successful := 45, failed := 5 }

/-- Poll state while campaign 1 is processing, with progress already
received and no errors yet. -/
def startedPoll : PollState :=
  { processingCampaignId := some 1, campaignStatus := some runningStatus,
    statusCheckErrors := 0, errorMsg := none, success := false }

/-- Analytics response whose `campaigns_count` is present but JSON null. -/
def nullAnalyticsResp : AnalyticsResp :=
  { campaigns_count := some JVal.jnull, total_campaigns := none,
    active_campaigns := none, completed_campaigns := none,
    success_rate := none, total_submissions := none,
    successful_submissions := none, failed_submissions := none,
    websites_count := none, error := none }

/-- Whether a JSON value is a number. -/
def JVal.isNumber : JVal → Bool
  | JVal.num _ => true
  | JVal.jnull => false

/-- Dashboard ref state after one accepted fetch at t = 5000 ms. -/
def dashAfterFirstFetch : DashFetchState :=
  (fetchDashboardData
    { lastFetchTime := 0, isLoading := false, abortCtrl := none, nextCtrl := 0 }
    5000 false).1

/-! ## Helper lemmas -/

/-- The JavaScript fallback chain never yields the empty string when its
final default is non-empty. -/
theorem jsOr_ne_empty (a : Option String) (b : String) (hb : b ≠ "") :
    jsOr a b ≠ "" := by
  unfold jsOr
  cases a with
  | none => exact hb
  | some s =>
      by_cases h : s = ""
      · simp [h, hb]
      · simp [h]

/-- Merged-object field projection equals `getD` with default 0. -/
theorem spreadNum_eq_getD (v : Option JVal) : spreadNum v = v.getD (JVal.num 0) := by
  cases v <;> rfl

/-- A failed status check while polling is active increments the error
counter, surfaces the connection-lost message only when the pre-increment
counter is already at least 10, and leaves the campaign id, the received
status, and hence the polling condition untouched. -/
theorem failStep_active (s : PollState) (h : pollingActive s = true) :
    pollingActive (failStep s) = true ∧
    (failStep s).statusCheckErrors = s.statusCheckErrors + 1 ∧
    (failStep s).campaignStatus = s.campaignStatus ∧
    (failStep s).processingCampaignId = s.processingCampaignId ∧
    (failStep s).errorMsg =
      (if 10 ≤ s.statusCheckErrors then
        some "Lost connection to campaign processing. Please check campaign list."
      else s.errorMsg) := by
  have hPre : failStep s =
      if 10 ≤ s.statusCheckErrors then
        { s with statusCheckErrors := s.statusCheckErrors + 1,
                 errorMsg := some "Lost connection to campaign processing. Please check campaign list." }
      else { s with statusCheckErrors := s.statusCheckErrors + 1 } := by
    unfold failStep pollTick
    rw [if_pos h]
  by_cases h10 : 10 ≤ s.statusCheckErrors
  · rw [hPre, if_pos h10]
    exact ⟨h, rfl, rfl, rfl, (if_pos h10).symm⟩
  · rw [hPre, if_neg h10]
    exact ⟨h, rfl, rfl, rfl, (if_neg h10).symm⟩

/-- When the polling condition is false no interval exists, so a tick is
impossible and the state cannot change. -/
theorem pollTick_inactive (s : PollState) (h : pollingActive s = false)
    (r : Except Unit CampaignStatusMsg) : pollTick s r = s := by
  unfold pollTick
  rw [if_neg (by simp [h])]

/-! ## Claim theorems -/

/-- Claim C1 as stated is false: the `ProtectedRoute` of
`src/frontend/src/App.jsx` evaluated for an authenticated admin on an
owner-only route redirects to the fixed path `/dashboard`, not to
`roleDefaultPath(admin) = /admin`. -/
theorem c1_role_redirect_counterexample :
    ProtectedRouteApp (some { role := "admin", contactInfoCompleted := true })
        ["owner"] false "/billing" = RouteDecision.redirect "/dashboard" ∧
    getDefaultPathForRole "admin" = "/admin" ∧
    ("/dashboard" : String) ≠ "/admin" := by
  exact ⟨rfl, rfl, by decide⟩

/-- Claim C1 amended: the repository has two divergent `ProtectedRoute`
versions. In the `part_000` variant a role mismatch on a non-empty
`allowedRoles` redirects to `getDefaultPathForRole` of the user role
(owner to /owner, admin to /admin, every other role to /dashboard); in the
`src/frontend/src/App.jsx` variant the same mismatch always redirects to
`/dashboard`. -/
theorem c1_role_redirect_amended (u : RouteUser) (roles : List String)
    (req : Bool) (path : String) (h1 : roles ≠ []) (h2 : u.role ∉ roles) :
    ProtectedRoute (some u) roles req path =
      RouteDecision.redirect (getDefaultPathForRole u.role) ∧
    ProtectedRouteApp (some u) roles req path =
      RouteDecision.redirect "/dashboard" := by
  have hl : 0 < roles.length := List.length_pos.mpr h1
  constructor
  · show (if 0 < roles.length ∧ u.role ∉ roles then
        RouteDecision.redirect (getDefaultPathForRole u.role)
      else if req ∧ ¬u.contactInfoCompleted ∧ path ≠ "/contact-info" then
        RouteDecision.redirect "/contact-info"
      else RouteDecision.allow) = RouteDecision.redirect (getDefaultPathForRole u.role)
    rw [if_pos ⟨hl, h2⟩]
  · show (if 0 < roles.length ∧ u.role ∉ roles then
        RouteDecision.redirect "/dashboard"
      else if req ∧ ¬u.contactInfoCompleted ∧ path ≠ "/contact-info" then
        RouteDecision.redirect "/contact-info"
      else RouteDecision.allow) = RouteDecision.redirect "/dashboard"
    rw [if_pos ⟨hl, h2⟩]

/-- Witness for the amended C1 at a concrete admin user on an owner-only
route. -/
theorem c1_role_redirect_witness :
    ProtectedRoute (some { role := "admin", contactInfoCompleted := true })
      ["owner"] false "/x" = RouteDecision.redirect (getDefaultPathForRole "admin") ∧
    ProtectedRouteApp (some { role := "admin", contactInfoCompleted := true })
      ["owner"] false "/x" = RouteDecision.redirect "/dashboard" :=
  c1_role_redirect_amended { role := "admin", contactInfoCompleted := true }
    ["owner"] false "/x" (by decide) (by decide)

/-- Claim C2 as stated is false: when the 401 response carries a JSON body
with a `detail` field, `makeRequest` rethrows a plain `Error` whose message
is that detail, so `login` returns the server detail instead of the fixed
string. -/
theorem c2_login_401_counterexample :
    (authLogin
        (AxiosOutcome.http 401
          (some { detail := some "Incorrect email or password", message := none }))
        emptyStorage).1 =
      { success := false, error := some "Incorrect email or password" } ∧
    ("Incorrect email or password" : String) ≠
      "Invalid email or password. Please check your credentials." := by
  exact ⟨rfl, by decide⟩

/-- Claim C2 amended: on a login attempt failing with HTTP 401, `login`
always returns success false and never raises (it is a total catch-all);
the error message is exactly the fixed invalid-credentials string only when
the 401 response body is absent or empty, and otherwise is the body
`detail` (or `message`, or the generic `Request failed`). -/
theorem c2_login_401_amended (body : Option RespBody) (s : Storage) :
    (authLogin (AxiosOutcome.http 401 body) s).1.success = false ∧
    (authLogin (AxiosOutcome.http 401 body) s).1.error =
      some (match body with
        | none => "Invalid email or password. Please check your credentials."
        | some b => jsOr b.detail (jsOr b.message "Request failed")) := by
  cases body with
  | none => exact ⟨rfl, rfl⟩
  | some b =>
      have h1 : jsOr b.detail (jsOr b.message "Request failed") ≠ "" :=
        jsOr_ne_empty _ _ (jsOr_ne_empty _ _ (by decide))
      refine ⟨rfl, ?_⟩
      show some (if jsOr b.detail (jsOr b.message "Request failed") ≠ "" then
          jsOr b.detail (jsOr b.message "Request failed")
        else jsCapitalize "login" ++ " failed. Please try again.") =
        some (jsOr b.detail (jsOr b.message "Request failed"))
      rw [if_pos h1]

/-- Claim C3 as stated is false: the campaign-list fetch swallows every
error — on an HTTP 500 with a body, `getCampaigns` resolves with the empty
list rather than propagating any error to the caller. -/
theorem c3_gateway_error_counterexample :
    getCampaigns
        (AxiosOutcome.http 500 (some { detail := some "boom", message := none }))
        emptyStorage =
      (Except.ok [], emptyStorage, false) := by
  exact rfl

/-- Claim C3 amended: on every non-2xx response `makeRequest` raises exactly
one error with no retry, but the error is not a `{status, detail}` pair:
with a response body present it is a plain `Error` carrying only the
`detail`-or-`message` string (the status is dropped), and only with an
absent body is the original status-bearing error rethrown. The errors
propagate for the plain operations, but the campaign-list fetch
`getCampaigns` catches them all and resolves with the empty list. -/
theorem c3_gateway_error_amended (status : Nat) (body : Option RespBody)
    (s : Storage) :
    (makeRequest (AxiosOutcome.http status body : AxiosOutcome CampaignsResp) s).1 =
      Except.error (match body with
        | some b => ThrownError.plainErr (jsOr b.detail (jsOr b.message "Request failed"))
        | none => ThrownError.httpErr status none) ∧
    (getCampaigns (AxiosOutcome.http status body) s).1 = Except.ok [] := by
  cases body <;> exact ⟨rfl, rfl⟩

/-- Claim C4 as stated is false: after a login that persisted the token,
the user info and the user id together, the 401 handler leaves the
`user_id` entry in place — the persisted credential is not destroyed in
full. -/
theorem c4_credential_401_counterexample :
    storageAfterLogin.user_id = some "42" ∧
    (makeRequest (AxiosOutcome.http 401 none : AxiosOutcome CampaignsResp)
        storageAfterLogin).2.1.access_token = none ∧
    (makeRequest (AxiosOutcome.http 401 none : AxiosOutcome CampaignsResp)
        storageAfterLogin).2.1.user_id = some "42" := by
  exact ⟨rfl, rfl, rfl⟩

/-- Claim C4 amended: on every HTTP 401 response the gateway interceptor
synchronously removes the `access_token` and `user_info` entries and forces
a hard navigation to the root path, but it leaves the `user_id` entry
written at login untouched. -/
theorem c4_credential_401_amended (body : Option RespBody) (s : Storage) :
    (makeRequest (AxiosOutcome.http 401 body : AxiosOutcome CampaignsResp) s).2 =
      ({ access_token := none, user_info := none, user_id := s.user_id }, true) := by
  cases body <;> rfl

/-- Claim C5: the polling loop never reaches a terminal failed state. From
a processing campaign with progress received, after n consecutive failed
status checks the error counter is n and polling is still active — in
particular after 10 failures an 11th poll is issued — the received progress
is never reset, and the connection-lost message first appears only once a
failure occurs with the counter already at 10, that is after the 11th
failed poll; even then the effect re-creates the interval, so the counter
keeps growing without polling ever stopping. -/
theorem c5_poll_failure_no_stop (n : Nat) :
    pollingActive (failStep^[n] startedPoll) = true ∧
    (failStep^[n] startedPoll).statusCheckErrors = n ∧
    (failStep^[n] startedPoll).campaignStatus = some runningStatus ∧
    (failStep^[n] startedPoll).errorMsg =
      (if 11 ≤ n then
        some "Lost connection to campaign processing. Please check campaign list."
      else none) := by
  induction n with
  | zero => exact ⟨rfl, rfl, rfl, rfl⟩
  | succ k ih =>
      obtain ⟨hact, herr, hcs, hmsg⟩ := ih
      rw [Function.iterate_succ_apply']
      obtain ⟨h1, h2, h3, _, h5⟩ := failStep_active (failStep^[k] startedPoll) hact
      refine ⟨h1, ?_, ?_, ?_⟩
      · rw [h2, herr]
      · rw [h3, hcs]
      · rw [h5, herr, hmsg]
        by_cases hk : 10 ≤ k
        · rw [if_pos hk, if_pos (by omega)]
        · rw [if_neg hk, if_neg (by omega), if_neg (by omega)]

/-- Claim C6: once a received status has `is_complete` true, the polling
channel is torn down — the effect condition becomes false so the interval
is cancelled and never re-created, no further tick can change the state —
and the WebSocket teardown helper cancels the ping interval and closes an
open transport. -/
theorem c6_completion_teardown (s : PollState) (st : CampaignStatusMsg)
    (hact : pollingActive s = true) (hc : st.is_complete = true) :
    pollingActive (pollTick s (Except.ok st)) = false ∧
    (∀ r, pollTick (pollTick s (Except.ok st)) r = pollTick s (Except.ok st)) ∧
    (∀ w : WsConn, closeWebSocket (some w) =
        some { pingInterval := none,
               readyState := if w.readyState = 1 then 3 else w.readyState }) := by
  have h1 : pollingActive (pollTick s (Except.ok st)) = false := by
    unfold pollTick
    rw [if_pos hact]
    simp only [hc, if_true]
    split
    · rfl
    · split
      · rfl
      · rfl
  exact ⟨h1, fun r => pollTick_inactive _ h1 r, fun w => rfl⟩

/-- Witness for C6 at a concrete processing state receiving a completed
status. -/
theorem c6_completion_teardown_witness :
    pollingActive (pollTick startedPoll (Except.ok doneStatus)) = false :=
  (c6_completion_teardown startedPoll doneStatus (by decide) (by decide)).1

/-- Claim C7: an unforced `fetchDashboardData` call within 1000 ms of the
previous accepted call is a no-op issuing no network batch, and every call
that does start a batch first aborts whatever abort controller was
installed before it, so a superseded in-flight batch is invalidated before
a new one starts. -/
theorem c7_fetch_dedup (s : DashFetchState) (now : Nat)
    (hcool : now - s.lastFetchTime < 1000) :
    fetchDashboardData s now false = (s, FetchAction.noop) ∧
    (∀ (s2 : DashFetchState) (t : Nat) (force : Bool) (a : Option Nat) (c : Nat),
        (fetchDashboardData s2 t force).2 = FetchAction.start a c →
        a = s2.abortCtrl) := by
  constructor
  · unfold fetchDashboardData
    rw [if_pos ⟨by simp, Or.inr hcool⟩]
  · intro s2 t force a c h
    unfold fetchDashboardData at h
    by_cases hc : ¬force = true ∧ (s2.isLoading = true ∨ t - s2.lastFetchTime < 1000)
    · rw [if_pos hc] at h
      exact absurd h (by simp)
    · rw [if_neg hc] at h
      simp only [FetchAction.start.injEq] at h
      exact h.1.symm

/-- Witness for C7: after an accepted fetch at t = 5000 ms, a second
unforced call 500 ms later is a no-op. -/
theorem c7_fetch_dedup_witness :
    fetchDashboardData dashAfterFirstFetch 5500 false =
      (dashAfterFirstFetch, FetchAction.noop) :=
  (c7_fetch_dedup dashAfterFirstFetch 5500 (by decide)).1

/-- Claim C8: whenever the current-user re-fetch fails, `refreshUser`
returns null and changes nothing — the held user snapshot and the stored
credential are exactly as before; logging out on 401 is the business of the
gateway interceptor, not of this function. -/
theorem c8_refresh_user_frame (st : AuthState) (s : Storage) (e : ThrownError) :
    refreshUser st s (Except.error e) = (none, st, s) := rfl

/-- Claim C9 as stated is false: an unknown non-empty role string coming
from the backend is passed through `getUserRole` unchanged instead of being
defaulted to `user`. -/
theorem c9_role_default_counterexample :
    getUserRole (some { id := none, role := JsRoleVal.vStr "superadmin" }) =
      JsRoleVal.vStr "superadmin" ∧
    ("superadmin" : String) ∉ (["user", "admin", "owner"] : List String) := by
  exact ⟨rfl, by decide⟩

/-- Claim C9 amended: only an absent or empty role defaults to `user`; an
unknown non-empty role value is kept as is by `getUserRole`, and the
role-based routing treats any role other than owner and admin like a plain
user (default path /dashboard). -/
theorem c9_role_default_amended (r : String) (h1 : r ≠ "")
    (h2 : r ∉ (["owner", "admin"] : List String)) :
    getUserRole (some { id := none, role := JsRoleVal.vStr r }) = JsRoleVal.vStr r ∧
    getUserRole none = JsRoleVal.vStr "user" ∧
    getUserRole (some { id := none, role := JsRoleVal.vUndefined }) =
      JsRoleVal.vStr "user" ∧
    getDefaultPathForRole r = "/dashboard" := by
  have hro : r ≠ "owner" := by
    intro h; exact h2 (by simp [h])
  have hra : r ≠ "admin" := by
    intro h; exact h2 (by simp [h])
  refine ⟨?_, rfl, rfl, ?_⟩
  · unfold getUserRole
    simp [h1]
  · unfold getDefaultPathForRole
    rw [if_neg hro, if_neg hra]

/-- Witness for the amended C9 at the unknown role `moderator`. -/
theorem c9_role_default_witness :
    getUserRole (some { id := none, role := JsRoleVal.vStr "moderator" }) =
      JsRoleVal.vStr "moderator" ∧
    getUserRole none = JsRoleVal.vStr "user" ∧
    getUserRole (some { id := none, role := JsRoleVal.vUndefined }) =
      JsRoleVal.vStr "user" ∧
    getDefaultPathForRole "moderator" = "/dashboard" :=
  c9_role_default_amended "moderator" (by decide) (by decide)

/-- Claim C10 as stated is false: a summary field that is present in the
response but JSON null survives the trailing response spread, so the
resolved object carries null — not a number — in that field. -/
theorem c10_analytics_counterexample :
    (getUserAnalytics (AxiosOutcome.ok nullAnalyticsResp) emptyStorage).1.campaigns_count =
      JVal.jnull ∧
    JVal.isNumber JVal.jnull = false := by
  exact ⟨rfl, rfl⟩

/-- Claim C10 amended: `getUserAnalytics` never rejects. On a failed
request it resolves with every summary field zero and `error` true. On a
successful response each summary field defaults to 0 only when absent from
the response; a present field is passed through verbatim (the trailing
spread overrides the defaulting), so it is a number only when the backend
sent one. -/
theorem c10_analytics_amended :
    (∀ (r : AnalyticsResp) (s : Storage),
        (getUserAnalytics (AxiosOutcome.ok r) s).1 =
          { campaigns_count := r.campaigns_count.getD (JVal.num 0),
            total_campaigns := r.total_campaigns.getD (jsOrZero r.campaigns_count),
            active_campaigns := r.active_campaigns.getD (JVal.num 0),
            completed_campaigns := r.completed_campaigns.getD (JVal.num 0),
            success_rate := r.success_rate.getD (JVal.num 0),
            total_submissions := r.total_submissions.getD (JVal.num 0),
            successful_submissions := r.successful_submissions.getD (JVal.num 0),
            failed_submissions := r.failed_submissions.getD (JVal.num 0),
            websites_count := r.websites_count.getD (JVal.num 0),
            error := r.error.getD false }) ∧
    (∀ (status : Nat) (body : Option RespBody) (s : Storage),
        (getUserAnalytics (AxiosOutcome.http status body) s).1 = zeroAnalytics) ∧
    (∀ (code msg : String) (s : Storage),
        (getUserAnalytics (AxiosOutcome.network code msg) s).1 = zeroAnalytics) := by
  refine ⟨?_, ?_, ?_⟩
  · intro r s
    unfold getUserAnalytics
    cases htc : r.total_campaigns <;>
      simp [makeRequest, spreadNum_eq_getD, htc, jsOrZero]
  · intro status body s
    cases body <;> rfl
  · intro code msg s
    rfl

end ContactPageSubmitter
